import Mathlib

/-!
Verification of the nvme command-line utility (src/nvme.c) against its
natural-language specification.  Each numbered claim C1..C10 is settled by a
theorem over a shallow embedding of the relevant C code.  C unsigned-int
arithmetic is modelled on Nat with explicit reduction mod 2^32 where the C
code stores into a 32-bit object; C int arithmetic that can go negative is
modelled on Int.
-/

set_option maxHeartbeats 1000000
set_option maxRecDepth 100000

namespace NvmeCli

/-- Linux errno value EINVAL, the return code nvme.c uses for validation
failures. -/
def EINVAL : Nat := 22

/-- Linux errno value ENOMEM, returned when a payload buffer cannot be
allocated. -/
def ENOMEM : Nat := 12

/-- Feature identifier NVME_FEAT_LBA_RANGE from the bundled protocol header
linux/nvme.h (the header is part of the build but not under src/; the value is
the standard one, 0x03). -/
def NVME_FEAT_LBA_RANGE : Nat := 0x03

/-- Admin opcode nvme_admin_get_features (0x0a, from linux/nvme.h). -/
def nvme_admin_get_features : Nat := 0x0a

/-- Admin opcode nvme_admin_set_features (0x09, from linux/nvme.h). -/
def nvme_admin_set_features : Nat := 0x09

/-- Admin opcode nvme_admin_download_fw (0x11, from linux/nvme.h). -/
def nvme_admin_download_fw : Nat := 0x11

/-- The slice of struct nvme_admin_cmd that the feature sub-commands populate:
opcode, nsid, cdw10, cdw11, data_len, plus whether a payload buffer was
malloc-ed for the command (cmd.addr nonzero).  All other words stay zero from
the memset. -/
structure AdminCmd where
  opcode : Nat
  nsid : Nat
  cdw10 : Nat
  cdw11 : Nat
  data_len : Nat
  buf_allocated : Bool
deriving DecidableEq

/-- Embeds get_feature (src/nvme.c lines 986-1002), from the end of option
parsing to the call of nvme_feature.  Inputs are the parsed option values:
sel comes from get_byte (so it fits a byte), f, nsid, cdw11 and data_len from
get_int (32-bit unsigned).  The function returns the admin command handed to
nvme_feature, or with Except.error the errno value returned before any
command is built: sel > 7 and f = 0 are rejected first; f = NVME_FEAT_LBA_RANGE
forces data_len to 4096; a buffer is allocated iff the final data_len is
nonzero; cdw10 is sel << 8 | f computed in a 32-bit unsigned int (note: the
code applies no mask to either field). -/
def get_feature (sel f nsid cdw11 data_len : Nat) : Except Nat AdminCmd :=
  if 7 < sel then Except.error EINVAL
  else if f = 0 then Except.error EINVAL
  else
    let dl := if f = NVME_FEAT_LBA_RANGE then 4096 else data_len
    Except.ok
      { opcode := nvme_admin_get_features
        nsid := nsid
        cdw10 := ((sel <<< 8) ||| f) % 2 ^ 32
        cdw11 := cdw11
        data_len := dl
        buf_allocated := dl != 0 }

/-- Embeds set_feature (src/nvme.c lines 1285-1332) up to the call of
nvme_feature.  value_given models the val == -1 check (val is only set when
the value option was supplied); f = 0 is rejected; f = NVME_FEAT_LBA_RANGE
forces data_len to 4096; cdw10 receives the feature id unchanged and cdw11 the
supplied value. -/
def set_feature (f v nsid data_len : Nat) (value_given : Bool) : Except Nat AdminCmd :=
  if ¬value_given then Except.error EINVAL
  else if f = 0 then Except.error EINVAL
  else
    let dl := if f = NVME_FEAT_LBA_RANGE then 4096 else data_len
    Except.ok
      { opcode := nvme_admin_set_features
        nsid := nsid
        cdw10 := f % 2 ^ 32
        cdw11 := v
        data_len := dl
        buf_allocated := dl != 0 }

/-- The packing formula stated by the spec for the get/set-feature command
word, written from the spec text: cdw10 = (select and 0x7) << 8 | (feature_id
and 0xFF).  Kept separate from the code embedding so the two can be compared. -/
def spec_feature_cdw10 (sel f : Nat) : Nat :=
  ((sel &&& 0x7) <<< 8) ||| (f &&& 0xFF)

/-- Embeds nvme_status_to_string (src/nvme.c lines 310-350): a switch on
status & 0x3ff over the NVME_SC_* constants of linux/nvme.h (standard values),
with default "Unknown".  Purity and totality are by construction: this is a
total function of its argument. -/
def nvme_status_to_string (status : Nat) : String :=
  match status &&& 0x3ff with
  | 0x0 => "SUCCESS"
  | 0x1 => "INVALID_OPCODE"
  | 0x2 => "INVALID_FIELD"
  | 0x3 => "CMDID_CONFLICT"
  | 0x4 => "DATA_XFER_ERROR"
  | 0x5 => "POWER_LOSS"
  | 0x6 => "INTERNAL"
  | 0x7 => "ABORT_REQ"
  | 0x8 => "ABORT_QUEUE"
  | 0x9 => "FUSED_FAIL"
  | 0xa => "FUSED_MISSING"
  | 0xb => "INVALID_NS"
  | 0xc => "CMD_SEQ_ERROR"
  | 0x80 => "LBA_RANGE"
  | 0x81 => "CAP_EXCEEDED"
  | 0x82 => "NS_NOT_READY"
  | 0x100 => "CQ_INVALID"
  | 0x101 => "QID_INVALID"
  | 0x102 => "QUEUE_SIZE"
  | 0x103 => "ABORT_LIMIT"
  | 0x104 => "ABORT_MISSING"
  | 0x105 => "ASYNC_LIMIT"
  | 0x106 => "FIRMWARE_SLOT"
  | 0x107 => "FIRMWARE_IMAGE"
  | 0x108 => "INVALID_VECTOR"
  | 0x109 => "INVALID_LOG_PAGE"
  | 0x10a => "INVALID_FORMAT"
  | 0x180 => "BAD_ATTRIBUTES"
  | 0x280 => "WRITE_FAULT"
  | 0x281 => "READ_ERROR"
  | 0x282 => "GUARD_CHECK"
  | 0x283 => "APPTAG_CHECK"
  | 0x284 => "REFTAG_CHECK"
  | 0x285 => "COMPARE_FAILED"
  | 0x286 => "ACCESS_DENIED"
  | _ => "Unknown"

/-- The closed set of names nvme_status_to_string can produce: the 35 case
labels of the switch plus the default "Unknown". -/
def nvme_status_names : List String :=
  ["SUCCESS", "INVALID_OPCODE", "INVALID_FIELD", "CMDID_CONFLICT",
   "DATA_XFER_ERROR", "POWER_LOSS", "INTERNAL", "ABORT_REQ", "ABORT_QUEUE",
   "FUSED_FAIL", "FUSED_MISSING", "INVALID_NS", "CMD_SEQ_ERROR", "LBA_RANGE",
   "CAP_EXCEEDED", "NS_NOT_READY", "CQ_INVALID", "QID_INVALID", "QUEUE_SIZE",
   "ABORT_LIMIT", "ABORT_MISSING", "ASYNC_LIMIT", "FIRMWARE_SLOT",
   "FIRMWARE_IMAGE", "INVALID_VECTOR", "INVALID_LOG_PAGE", "INVALID_FORMAT",
   "BAD_ATTRIBUTES", "WRITE_FAULT", "READ_ERROR", "GUARD_CHECK",
   "APPTAG_CHECK", "REFTAG_CHECK", "COMPARE_FAILED", "ACCESS_DENIED",
   "Unknown"]

/-- The status codes in [0, 1023] assigned a name other than "Unknown" by the
switch of nvme_status_to_string. -/
def nvme_assigned_status_codes : List Nat :=
  [0x0, 0x1, 0x2, 0x3, 0x4, 0x5, 0x6, 0x7, 0x8, 0x9, 0xa, 0xb, 0xc,
   0x80, 0x81, 0x82,
   0x100, 0x101, 0x102, 0x103, 0x104, 0x105, 0x106, 0x107, 0x108, 0x109,
   0x10a, 0x180, 0x280, 0x281, 0x282, 0x283, 0x284, 0x285, 0x286]

/-- Embeds the temperature computation of show_smart_log (src/nvme.c lines
256-264): the C int expression (temperature[1] << 8 | temperature[0]) - 273 is
stored into an unsigned int, i.e. reduced mod 2^32, and that unsigned value is
what the %u conversion prints.  t0 and t1 are the two temperature bytes. -/
def smart_log_temperature (t0 t1 : Nat) : Nat :=
  ((((t1 <<< 8) ||| t0 : Int) - 273) % (2 ^ 32 : Int)).toNat

/-- The Kelvin-to-Celsius value the spec (and the comment above the code)
expects show_smart_log to report for the two temperature bytes. -/
def spec_celsius (t0 t1 : Nat) : Int :=
  ((t1 <<< 8) ||| t0 : Int) - 273

/-- Embeds int128_to_double (src/nvme.c lines 244-254): result starts at 0 and
for i = 0..15 becomes result * 256 + data[15 - i], i.e. accumulation from the
most significant byte of a 16-byte little-endian value.  The C accumulator is
a long double (x87 extended precision, 64-bit significand); every value this
development evaluates the function at is a nonnegative integer at most 2^64,
and so is every intermediate accumulator value on those inputs, all exactly
representable, so exact Nat arithmetic agrees with the C computation there. -/
def int128_to_double (data : List Nat) : Nat :=
  (List.range 16).foldl (fun result i => result * 256 + data.getD (15 - i) 0) 0

/-- The 16 little-endian bytes encoding 2^64: byte 8 is 1, all others 0. -/
def bytes_of_two_pow_64 : List Nat :=
  [0, 0, 0, 0, 0, 0, 0, 0, 1, 0, 0, 0, 0, 0, 0, 0]

/-- Embeds d_raw (src/nvme.c lines 378-383) over a byte-addressed memory:
putchar(*(buf + i)) for i = 0 .. len - 1, so the emitted stream is the len
bytes starting at address addr, in order. -/
def d_raw (heap : Nat → Nat) (addr len : Nat) : List Nat :=
  (List.range len).map (fun i => heap (addr + i))

/-- Embeds the raw branch of sec_recv (src/nvme.c line 1949), which calls
d_raw((unsigned char *)&sec_buf, sec_size): the address passed is
ptr_addr, the address OF the local pointer variable sec_buf, not the buffer
address stored IN it. -/
def sec_recv_raw_output (heap : Nat → Nat) (ptr_addr sec_size : Nat) : List Nat :=
  d_raw heap ptr_addr sec_size

/-- Little-endian byte i of a 64-bit value v, as an x86-64 pointer variable
stores it in memory. -/
def le64_byte (v i : Nat) : Nat :=
  (v >>> (8 * i)) % 256

/-- A concrete memory for the sec_recv scenario: the 8-byte received security
buffer lives at address 0x1000 and holds bytes 1..8; the local pointer
variable sec_buf lives at address 0x2000 and holds the little-endian encoding
of the buffer address 0x1000; every other byte is 0. -/
def sec_recv_heap : Nat → Nat := fun a =>
  if 0x1000 ≤ a ∧ a < 0x1008 then a - 0x1000 + 1
  else if 0x2000 ≤ a ∧ a < 0x2008 then le64_byte 0x1000 (a - 0x2000)
  else 0

/-- Outcome of the nvme_passthru driver: either a validation error returned
before the ioctl, or submission of the populated command to the execution
boundary (read records whether the read flag directs a device-to-host
transfer). -/
inductive PassthruOutcome where
  | rejected (err : Nat)
  | submitted (read : Bool)
deriving DecidableEq

/-- Embeds the direction validation of nvme_passthru (src/nvme.c lines
2020-2038) between option parsing and the ioctl: when data_len is nonzero, a
buffer is allocated and then neither-read-nor-write and both-read-and-write
are rejected with EINVAL before the ioctl; when data_len is zero no direction
check is applied and the command proceeds to submission. -/
def nvme_passthru (data_len : Nat) (r w : Bool) : PassthruOutcome :=
  if data_len ≠ 0 then
    if !r && !w then PassthruOutcome.rejected EINVAL
    else if r && w then PassthruOutcome.rejected EINVAL
    else PassthruOutcome.submitted r
  else PassthruOutcome.submitted r

/-- Embeds the return-value computation of flush (src/nvme.c lines 1447-1456)
as a function of the execution-boundary result err and the host errno: err < 0
returns errno; any other path, including a positive protocol status (which is
only printed), falls through to the final return 0. -/
def flush_ret (err : Int) (errno : Nat) : Int :=
  if err < 0 then (errno : Int) else 0

/-- Embeds the return-value computation of resv_acquire (src/nvme.c lines
1521-1529): identical shape to flush, ending in return 0 even after a positive
protocol status has been printed. -/
def resv_acquire_ret (err : Int) (errno : Nat) : Int :=
  if err < 0 then (errno : Int) else 0

/-- Embeds the return-value computation of submit_io (src/nvme.c lines
1847-1862) after the ioctl: a negative err is only perror-ed and a positive
protocol status only printed, both falling through to free_and_return which
returns 0; only a failed write of the read data to the output file (opcode
even, write_ok false, err = 0) returns EINVAL. -/
def submit_io_ret (opcode : Nat) (err : Int) (write_ok : Bool) : Int :=
  if err < 0 then 0
  else if err ≠ 0 then 0
  else if opcode % 2 = 0 ∧ ¬write_ok then (EINVAL : Int)
  else 0

/-- One parsed option event of the resv_report getopt loop (src/nvme.c lines
1693-1702).  The optstring is "n:d:r", so getopt can yield 'n', 'd' and 'r';
the long option raw-binary yields 'b', which, like any unrecognized option,
falls to the default case.  rawShort is the short option 'r', whose handler is
the only assignment to the raw flag and sets it to 0. -/
inductive RROpt where
  | nsid (v : Nat)
  | numd (v : Nat)
  | rawShort
  | unknown
deriving DecidableEq

/-- The local state of resv_report that the getopt loop updates. -/
structure RRState where
  nsid : Nat
  numd : Nat
  raw : Nat
deriving DecidableEq

/-- Initial resv_report state: nsid = 0, numd = (0x1000 > 2) which in C is the
comparison result 1, raw = 0. -/
def rr_init : RRState :=
  { nsid := 0, numd := 1, raw := 0 }

/-- One iteration of the resv_report getopt switch: 'n' and 'd' store their
arguments, 'r' assigns raw = 0, and the default case returns EINVAL. -/
def resv_report_step (s : RRState) (o : RROpt) : Except Nat RRState :=
  match o with
  | RROpt.nsid v => Except.ok { s with nsid := v }
  | RROpt.numd v => Except.ok { s with numd := v }
  | RROpt.rawShort => Except.ok { s with raw := 0 }
  | RROpt.unknown => Except.error EINVAL

/-- The resv_report getopt loop from an arbitrary state: each event updates
the state via resv_report_step, and the default case's EINVAL return leaves
the loop early. -/
def resv_report_getopt_from (s : RRState) : List RROpt → Except Nat RRState
  | [] => Except.ok s
  | o :: rest =>
    match resv_report_step s o with
    | Except.error e => Except.error e
    | Except.ok s1 => resv_report_getopt_from s1 rest

/-- The whole resv_report getopt loop over a list of parsed option events. -/
def resv_report_getopt (opts : List RROpt) : Except Nat RRState :=
  resv_report_getopt_from rr_init opts

/-- The two presentation modes of a decode step. -/
inductive DecodeMode where
  | formatted
  | raw
deriving DecidableEq

/-- Embeds the success branch of resv_report after the ioctl (src/nvme.c lines
1741-1747): if (!raw) show the formatted report, else d_raw the buffer. -/
def resv_report_decode_mode (raw : Nat) : DecodeMode :=
  if raw = 0 then DecodeMode.formatted else DecodeMode.raw

/-- One firmware-download admin command built by the fw_download submit loop:
opcode nvme_admin_download_fw, data_len = the transfer size, cdw10 = the
dword count minus one, cdw11 = the dword offset (32-bit unsigned values). -/
structure FwCmd where
  opcode : Nat
  data_len : Nat
  cdw10 : Nat
  cdw11 : Nat
deriving DecidableEq

/-- Embeds the fw_download submit loop (src/nvme.c lines 1082-1103) under an
always-successful execution boundary, with explicit fuel for termination:
while fw_size > 0, transfer min(xfer_size, fw_size) bytes, build and submit
one command, then advance.  Each iteration with positive xfer strictly
decreases fw_size, so fuel = fw_size + 1 suffices when xfer_size > 0. -/
def fw_download_loop : Nat → Nat → Nat → Nat → List FwCmd
  | 0, _, _, _ => []
  | _ + 1, 0, _, _ => []
  | fuel + 1, fw_size + 1, xfer_size, offset =>
    let fs := fw_size + 1
    let xfer := if xfer_size > fs then fs else xfer_size
    { opcode := nvme_admin_download_fw
      data_len := xfer
      cdw10 := (xfer / 4 + (2 ^ 32 - 1)) % 2 ^ 32
      cdw11 := (offset / 4) % 2 ^ 32 }
      :: fw_download_loop fuel (fs - xfer) xfer (offset + xfer)

/-- Embeds fw_download (src/nvme.c lines 1027-1107) from the end of option
parsing: a missing firmware file returns EINVAL (an fstat failure exits the
process and is outside this embedding); a firmware size not divisible by 4
(fw_size & 0x3 nonzero) returns EINVAL; an allocation failure returns ENOMEM;
only then is xfer_size normalized to 4096 unless already a multiple of 4096,
and the submit loop entered.  An Except.error result is produced before any
command descriptor is built or submitted. -/
def fw_download (fw_fd_ok : Bool) (fw_size xfer_size_in : Nat) (mem_ok : Bool) :
    Except Nat (List FwCmd) :=
  if ¬fw_fd_ok then Except.error EINVAL
  else if fw_size &&& 0x3 ≠ 0 then Except.error EINVAL
  else if ¬mem_ok then Except.error ENOMEM
  else
    let xfer_size := if xfer_size_in % 4096 ≠ 0 then 4096 else xfer_size_in
    Except.ok (fw_download_loop (fw_size + 1) fw_size xfer_size 0)

/-!  Theorems settling the claims. -/

/-- C1 (amended): for every select value in [0,7] and every feature id in
[1,255] (a nonzero byte; a zero feature id is rejected as a missing
parameter), get_feature packs cdw10 exactly as the documented formula
((select & 0x7) << 8) | (feature_id & 0xFF), and every select value greater
than 7 is rejected with EINVAL before any command is built or submitted.  The
claim as frozen quantifies over every feature id; it fails for ids above 255
because the code applies no mask, see the counterexample theorem. -/
theorem C1_feature_cdw10_packing (sel f nsid cdw11 dl : Nat) :
    (sel ≤ 7 → 1 ≤ f → f ≤ 255 →
      (get_feature sel f nsid cdw11 dl).toOption.map AdminCmd.cdw10
        = some (spec_feature_cdw10 sel f))
    ∧ (7 < sel → get_feature sel f nsid cdw11 dl = Except.error EINVAL) := by
  constructor
  · intro hs hf1 hf
    have hsel7 : ¬(7 < sel) := by omega
    have hf0 : ¬(f = 0) := by omega
    have hmask7 : sel &&& 0x7 = sel := by
      have h : sel &&& 7 = sel % 8 := Nat.and_pow_two_sub_one_eq_mod sel 3
      rw [h]
      exact Nat.mod_eq_of_lt (by omega)
    have hmaskf : f &&& 0xFF = f := by
      have h : f &&& 255 = f % 256 := Nat.and_pow_two_sub_one_eq_mod f 8
      rw [h]
      exact Nat.mod_eq_of_lt (by omega)
    have hlt : (sel <<< 8) ||| f < 2 ^ 32 := by
      have hx : sel <<< 8 < 2 ^ 32 := by
        rw [Nat.shiftLeft_eq]
        have : sel * 2 ^ 8 ≤ 7 * 2 ^ 8 := Nat.mul_le_mul_right _ hs
        omega
      have hy : f < 2 ^ 32 := by omega
      exact Nat.or_lt_two_pow hx hy
    simp [get_feature, hsel7, hf0, spec_feature_cdw10, hmask7, hmaskf,
      Nat.mod_eq_of_lt hlt, Except.toOption]
    exact hlt
  · intro hs
    simp [get_feature, hs]

/-- C1 witness: the packing equality at select 2, feature id 129, and the
rejection at select 8, both instances of the C1 theorem. -/
theorem C1_feature_cdw10_packing_witness :
    (get_feature 2 129 0 0 0).toOption.map AdminCmd.cdw10
      = some (spec_feature_cdw10 2 129)
    ∧ get_feature 8 129 0 0 0 = Except.error EINVAL :=
  ⟨(C1_feature_cdw10_packing 2 129 0 0 0).1 (by decide) (by decide) (by decide),
   (C1_feature_cdw10_packing 8 129 0 0 0).2 (by decide)⟩

/-- C1 counterexample to the claim as frozen: at select 0 and feature id 256,
get_feature builds cdw10 = 256 (the unmasked id), while the documented formula
((select & 0x7) << 8) | (feature_id & 0xFF) gives 0. -/
theorem C1_feature_cdw10_counterexample :
    (get_feature 0 256 0 0 0).toOption.map AdminCmd.cdw10 = some 256
    ∧ spec_feature_cdw10 0 256 = 0
    ∧ (256 : Nat) ≠ 0 := by
  refine ⟨?_, by decide, by decide⟩
  rfl

/-- Helper for C2: every code below 1024 is classified into the closed name
set, checked by exhaustive evaluation. -/
theorem status_total :
    ∀ s : Nat, s < 1024 → nvme_status_to_string s ∈ nvme_status_names := by
  decide

/-- Helper for C2: every code below 1024 outside the assigned list classifies
as "Unknown", checked by exhaustive evaluation. -/
theorem status_default :
    ∀ s : Nat, s < 1024 → s ∉ nvme_assigned_status_codes →
      nvme_status_to_string s = "Unknown" := by
  decide

/-- C2: nvme_status_to_string depends only on the low 10 bits of its input
(classify(s) = classify(s & 0x3ff) for every s, which with totality and
functionality gives purity and idempotence), every code in [0, 1023] maps to
a name in the closed set nvme_status_names, and every code in [0, 1023] not
carrying an assigned name maps to "Unknown". -/
theorem C2_status_taxonomy (s : Nat) :
    nvme_status_to_string s = nvme_status_to_string (s &&& 0x3ff)
    ∧ (s < 1024 → nvme_status_to_string s ∈ nvme_status_names)
    ∧ (s < 1024 → s ∉ nvme_assigned_status_codes →
        nvme_status_to_string s = "Unknown") := by
  refine ⟨?_, fun hs => status_total s hs, fun hs hn => status_default s hs hn⟩
  have h : (s &&& 0x3ff) &&& 0x3ff = s &&& 0x3ff := by
    rw [Nat.and_assoc, Nat.and_self]
  rw [nvme_status_to_string, nvme_status_to_string, h]

/-- C2 witness: instances of the C2 theorem at the unassigned code 999 and
the low-10-bit reduction at 0x10481 (whose low bits are 0x081, CAP_EXCEEDED). -/
theorem C2_status_taxonomy_witness :
    nvme_status_to_string 0x10481 = nvme_status_to_string (0x10481 &&& 0x3ff)
    ∧ nvme_status_to_string 999 ∈ nvme_status_names
    ∧ nvme_status_to_string 999 = "Unknown" :=
  ⟨(C2_status_taxonomy 0x10481).1,
   (C2_status_taxonomy 999).2.1 (by decide),
   (C2_status_taxonomy 999).2.2 (by decide) (by decide)⟩

/-- C3: decoding a SMART-log buffer whose temperature bytes are [0x0C, 0x01]
(little-endian 0x010C = 268 Kelvin).  The claim expects the reported Celsius
temperature -5; the code computes 268 - 273 in an unsigned int, wrapping to
4294967291, and prints that with %u, so the reported value is 4294967291, not
the -5 the Kelvin-to-Celsius conversion (and the code's own comment) intend. -/
theorem C3_smart_temperature_bug :
    smart_log_temperature 0x0C 0x01 = 4294967291
    ∧ spec_celsius 0x0C 0x01 = -5
    ∧ ((4294967291 : Int) ≠ -5) := by
  refine ⟨by rfl, by decide, by decide⟩

/-- C4: int128_to_double decodes its 16 bytes as the little-endian value
(the sum of byte i times 256^i, for any byte list, shown from the
most-significant-first multiply-by-256-and-add accumulation), 16 zero bytes
decode to 0, the 16-byte encoding of 2^64 decodes to exactly 2^64, and 2^64
is strictly greater than the 64-bit maximum 2^64 - 1: no truncation to 64
bits. -/
theorem C4_wide_integer_decoder (data : List Nat) :
    int128_to_double data = ∑ i ∈ Finset.range 16, data.getD i 0 * 256 ^ i
    ∧ int128_to_double (List.replicate 16 0) = 0
    ∧ int128_to_double bytes_of_two_pow_64 = 2 ^ 64
    ∧ 2 ^ 64 - 1 < (2 ^ 64 : Nat) := by
  refine ⟨?_, by decide, by decide, by decide⟩
  have h16 : List.range 16 = [0, 1, 2, 3, 4, 5, 6, 7, 8, 9, 10, 11, 12, 13, 14, 15] := by
    rfl
  simp only [int128_to_double, h16, List.foldl_cons, List.foldl_nil,
    Finset.sum_range_succ, Finset.sum_range_zero]
  norm_num
  ring

/-- C5: the raw-mode output of the security-receive sub-command is not the
input buffer's byte sequence.  d_raw itself emits exactly the bytes at the
address it is given (first conjunct: the buffer at 0x1000 holds 1..8), but
sec_recv passes the address OF its local pointer variable instead of the
buffer address stored in it, so the emitted bytes are the pointer's own
little-endian encoding (second conjunct), which differ from the buffer
(third conjunct): the raw round-trip contract is broken for this
sub-command. -/
theorem C5_sec_recv_raw_roundtrip_bug :
    d_raw sec_recv_heap 0x1000 8 = [1, 2, 3, 4, 5, 6, 7, 8]
    ∧ sec_recv_raw_output sec_recv_heap 0x2000 8 = [0x00, 0x10, 0, 0, 0, 0, 0, 0]
    ∧ sec_recv_raw_output sec_recv_heap 0x2000 8 ≠ d_raw sec_recv_heap 0x1000 8 := by
  refine ⟨by decide, by decide, by decide⟩

/-- C6: with a nonzero data length, supplying neither or both direction flags
makes nvme_passthru return EINVAL before the command reaches the execution
boundary; with data length 0 no direction check is applied and every flag
combination proceeds to submission; with a nonzero data length and exactly
one flag the command also proceeds. -/
theorem C6_passthru_direction (data_len : Nat) (r w : Bool) :
    (data_len ≠ 0 → r = w →
      nvme_passthru data_len r w = PassthruOutcome.rejected EINVAL)
    ∧ (data_len = 0 → nvme_passthru data_len r w = PassthruOutcome.submitted r)
    ∧ (data_len ≠ 0 → r ≠ w →
      nvme_passthru data_len r w = PassthruOutcome.submitted r) := by
  cases r <;> cases w <;>
    refine ⟨fun h1 h2 => ?_, fun h1 => ?_, fun h1 h2 => ?_⟩ <;>
      simp_all [nvme_passthru]

/-- C6 witness: instances of the C6 theorem at data length 512 with no flag
(rejected), data length 0 with no flag (submitted), and data length 512 with
only the read flag (submitted). -/
theorem C6_passthru_direction_witness :
    nvme_passthru 512 false false = PassthruOutcome.rejected EINVAL
    ∧ nvme_passthru 0 false false = PassthruOutcome.submitted false
    ∧ nvme_passthru 512 true false = PassthruOutcome.submitted true :=
  ⟨(C6_passthru_direction 512 false false).1 (by decide) rfl,
   (C6_passthru_direction 0 false false).2.1 rfl,
   (C6_passthru_direction 512 true false).2.2 (by decide) (by decide)⟩

/-- C7: errors are swallowed.  flush and resv_acquire return 0 (success) to
their caller when the execution boundary reports the positive protocol status
1 (INVALID_OPCODE, a real error of the taxonomy); submit_io returns 0 both
for the positive status 1 and for the transport failure -1.  This contradicts
the claim that no sub-command returns success after the boundary reported a
failure or a nonzero protocol status. -/
theorem C7_error_swallowed :
    flush_ret 1 5 = 0
    ∧ resv_acquire_ret 1 5 = 0
    ∧ submit_io_ret 2 1 true = 0
    ∧ submit_io_ret 2 (-1) true = 0
    ∧ nvme_status_to_string 1 = "INVALID_OPCODE"
    ∧ (1 : Int) ≠ 0 := by
  refine ⟨by decide, by decide, by decide, by decide, by rfl, by decide⟩

/-- Helper for C8: the raw field of the resv_report option-parsing state stays
0 from any state whose raw field is 0, because the only assignment the loop
can make to it is raw = 0. -/
theorem rr_raw_zero_invariant (opts : List RROpt) :
    ∀ s0 s : RRState, s0.raw = 0 →
      resv_report_getopt_from s0 opts = Except.ok s → s.raw = 0 := by
  induction opts with
  | nil =>
    intro s0 s h0 h
    cases h
    exact h0
  | cons o rest ih =>
    intro s0 s h0 h
    cases o <;> simp only [resv_report_getopt_from, resv_report_step] at h
    case nsid v => exact ih { s0 with nsid := v } s h0 h
    case numd v => exact ih { s0 with numd := v } s h0 h
    case rawShort => exact ih { s0 with raw := 0 } s rfl h
    case unknown => cases h

/-- C8: in every execution of resv_report whose option parsing completes, the
raw flag is 0 (its only assignment sets it to 0, and the raw-binary long
option falls into the EINVAL default case), so the decode step always takes
the formatted branch: the raw dump is unreachable. -/
theorem C8_resv_report_raw_unreachable (opts : List RROpt) (s : RRState)
    (h : resv_report_getopt opts = Except.ok s) :
    s.raw = 0 ∧ resv_report_decode_mode s.raw = DecodeMode.formatted := by
  have h0 : s.raw = 0 := rr_raw_zero_invariant opts rr_init s rfl h
  refine ⟨h0, ?_⟩
  rw [h0]
  rfl

/-- C8 witness: the C8 theorem applied to the option list [-r, -n 5], whose
parse succeeds with final state nsid 5, numd 1, raw 0 and formatted decode. -/
theorem C8_resv_report_raw_unreachable_witness :
    ({ nsid := 5, numd := 1, raw := 0 } : RRState).raw = 0
    ∧ resv_report_decode_mode ({ nsid := 5, numd := 1, raw := 0 } : RRState).raw
      = DecodeMode.formatted :=
  C8_resv_report_raw_unreachable [RROpt.rawShort, RROpt.nsid 5]
    { nsid := 5, numd := 1, raw := 0 } (by rfl)

/-- C9: a firmware image whose size is not divisible by 4 makes fw_download
return EINVAL before any download command is built or submitted (the result
is an error, never an Except.ok command list), for every file state, transfer
size and allocation outcome. -/
theorem C9_fw_download_size_validation (fw_fd_ok mem_ok : Bool)
    (fw_size xfer_size : Nat) (h : fw_size % 4 ≠ 0) :
    fw_download fw_fd_ok fw_size xfer_size mem_ok = Except.error EINVAL := by
  have hand : fw_size &&& 0x3 = fw_size % 4 :=
    Nat.and_pow_two_sub_one_eq_mod fw_size 2
  cases fw_fd_ok with
  | false => rfl
  | true => simp [fw_download, hand, h]

/-- C9 witness: the C9 theorem at firmware size 5 (5 mod 4 = 1). -/
theorem C9_fw_download_size_validation_witness :
    fw_download true 5 0 true = Except.error EINVAL :=
  C9_fw_download_size_validation true true 5 0 (by decide)

/-- C10: for the LBA Range feature id, both get_feature and set_feature force
the command data length to 4096 whatever data length the caller supplied
(including 0), and a payload buffer is allocated. -/
theorem C10_lba_range_forces_4096 (sel nsid cdw11 v data_len : Nat)
    (hs : sel ≤ 7) :
    (get_feature sel NVME_FEAT_LBA_RANGE nsid cdw11 data_len).toOption.map
        (fun c => (c.data_len, c.buf_allocated)) = some (4096, true)
    ∧ (set_feature NVME_FEAT_LBA_RANGE v nsid data_len true).toOption.map
        (fun c => (c.data_len, c.buf_allocated)) = some (4096, true) := by
  have hsel : ¬(7 < sel) := by omega
  constructor
  · simp [get_feature, hsel, NVME_FEAT_LBA_RANGE, Except.toOption]
  · simp [set_feature, NVME_FEAT_LBA_RANGE, Except.toOption]

/-- C10 witness: the C10 theorem at select 0 and caller data length 0. -/
theorem C10_lba_range_forces_4096_witness :
    (get_feature 0 NVME_FEAT_LBA_RANGE 0 0 0).toOption.map
        (fun c => (c.data_len, c.buf_allocated)) = some (4096, true)
    ∧ (set_feature NVME_FEAT_LBA_RANGE 0 0 0 true).toOption.map
        (fun c => (c.data_len, c.buf_allocated)) = some (4096, true) :=
  C10_lba_range_forces_4096 0 0 0 0 0 (by decide)

end NvmeCli
